import Mathlib

/-!
Verification of the statistical core of
`src/universal_field_toolkit_correlator_sred.py`.

The Python module operates on a pandas `DataFrame` loaded from a CSV file.
We embed the tabular data model shallowly:

* a cell is a parsed-numeric value, a non-numeric token, or a missing value
  (`NaN`); `pd.to_numeric(errors="coerce")` maps non-numeric tokens and
  missing values to missing;
* a data frame is an ordered association of column names to cell columns;
  a column whose cells are all numeric-or-missing models a numeric-dtype
  pandas column, while a column containing a non-numeric token models an
  object-dtype column (this is how `pd.read_csv` types columns);
* floating-point results are modelled exactly: means, covariances and
  quantiles over `ℚ`, and the Pearson quotient (which involves a square
  root) over `ℝ`.  `DataFrame.round(3)` is modelled by rounding to an
  integer multiple of `1/1000` (pandas rounds ties to even; ties at the
  fourth decimal are immaterial to every property proved here).
-/

namespace Correlator

/-- A scalar cell of the tabular dataset: a numeric value, a non-numeric
token (a string that `pd.to_numeric` cannot parse), or a missing value. -/
inductive Cell where
  | num (q : ℚ)
  | str (s : String)
  | null
deriving DecidableEq

/-- A tabular dataset: ordered columns, each a name with its cells.
Mirrors the pandas `DataFrame` produced by `pd.read_csv`. -/
structure DataFrame where
  cols : List (String × List Cell)

/-- Column-presence test, `col in df.columns`. -/
def DataFrame.hasCol (df : DataFrame) (c : String) : Bool :=
  df.cols.any (fun p => p.1 == c)

/-- The cells of column `c` (`df[c]`); empty if the column is absent. -/
def DataFrame.getCol (df : DataFrame) (c : String) : List Cell :=
  ((df.cols.find? (fun p => p.1 == c)).map Prod.snd).getD []

/-- Number of rows (`len(df)`); pandas columns share one length, so we
take the maximum of the column lengths. -/
def DataFrame.nrows (df : DataFrame) : ℕ :=
  (df.cols.map (fun p => p.2.length)).foldr max 0

/-- The cell of column `c` in row `i`; missing when out of range. -/
def DataFrame.cellAt (df : DataFrame) (c : String) (i : ℕ) : Cell :=
  (df.getCol c).getD i Cell.null

/-- The fixed catalog of recognized feature columns (module constant
`FEATURE_COLUMNS`). -/
def FEATURE_COLUMNS : List String :=
  ["Brightness",
   "Mean_R", "Mean_G", "Mean_B",
   "Normalized_Blue",
   "Color_Temp_Proxy",
   "Texture",
   "Relative_Texture_Variance",
   "Edge_Density",
   "Shadow_Intensity",
   "Shadow_Direction_Variance",
   "Relative_Brightness_Variance"]

/-- `pd.to_numeric(x, errors="coerce")` on one cell: numeric values pass
through, non-numeric tokens and missing values become missing. -/
def toNumeric : Cell → Option ℚ
  | Cell.num q => some q
  | Cell.str _ => none
  | Cell.null => none

/-- `[col for col in FEATURE_COLUMNS if col in df.columns]`. -/
def availableFeatures (df : DataFrame) : List String :=
  FEATURE_COLUMNS.filter df.hasCol

/-- The row indices surviving `df[available].apply(pd.to_numeric,
errors="coerce").dropna()`: rows whose every selected feature cell is
numeric. -/
def validRowIdx (df : DataFrame) : List ℕ :=
  (List.range df.nrows).filter
    (fun i => (availableFeatures df).all
      (fun c => (toNumeric (df.cellAt c i)).isSome))

/-- Column `c` of the cleaned feature frame: its numeric values on the
valid rows, in row order. -/
def featureColumn (df : DataFrame) (c : String) : List ℚ :=
  (validRowIdx df).map (fun i => (toNumeric (df.cellAt c i)).getD 0)

/-- Arithmetic mean of a list of rationals (0 for the empty list, which
models pandas' `NaN` on empty input). -/
def listMean (l : List ℚ) : ℚ := l.sum / l.length

/-- `Σ_i (xs_i - mean xs) * (ys_i - mean ys)`, the centred cross-product
sum accumulated by pandas' `nancorr` kernel. -/
def covSum (xs ys : List ℚ) : ℚ :=
  ∑ i ∈ Finset.range xs.length,
    (xs.getD i 0 - listMean xs) * (ys.getD i 0 - listMean ys)

/-- `Σ_i (xs_i - mean xs)^2`, the centred sum of squares (`ssqdm` in the
pandas kernel). -/
def varSum (xs : List ℚ) : ℚ := covSum xs xs

/-- The Pearson correlation coefficient as computed by `df.corr
(method="pearson")`: `Σ dx dy / sqrt(Σ dx² * Σ dy²)`.  Lean's division
by zero yields `0` where pandas produces `NaN` (constant column). -/
noncomputable def pearson (xs ys : List ℚ) : ℝ :=
  ((covSum xs ys : ℚ) : ℝ) /
    Real.sqrt (((varSum xs : ℚ) : ℝ) * ((varSum ys : ℚ) : ℝ))

/-- `.round(3)` on one real cell, returning the exact 3-decimal rational. -/
noncomputable def round3 (x : ℝ) : ℚ := ((round (1000 * x) : ℤ) : ℚ) / 1000

/-- `.round(3)` on one rational cell. -/
def roundq3 (q : ℚ) : ℚ := ((round (1000 * q) : ℤ) : ℚ) / 1000

/-- A non-empty correlation matrix: its column labels and the cell at a
pair of labels (`corr.loc[c1, c2]`). -/
structure CorrMatrix where
  cols : List String
  entry : String → String → ℚ

/-- `compute_correlations`: select available catalog features, coerce to
numeric, drop rows with a missing feature, and return the rounded Pearson
matrix; `none` models the empty `pd.DataFrame()` returned when fewer than
2 columns or fewer than 2 clean rows remain. -/
noncomputable def compute_correlations (df : DataFrame) : Option CorrMatrix :=
  if (availableFeatures df).length < 2 then none
  else if (validRowIdx df).length < 2 then none
  else some
    { cols := availableFeatures df
      entry := fun c1 c2 =>
        round3 (pearson (featureColumn df c1) (featureColumn df c2)) }

/-! ### Small executable list utilities

The pandas operations below (dedup-by-first-appearance, stable sort,
string comparison, substring removal) are embedded as structural
recursions so that the kernel can evaluate them on concrete data. -/

/-- Helper for `dedupFirst`: drop elements already seen. -/
def dedupFirstAux {α : Type} [DecidableEq α] : List α → List α → List α
  | [], _ => []
  | c :: rest, seen =>
    if c ∈ seen then dedupFirstAux rest seen
    else c :: dedupFirstAux rest (c :: seen)

/-- The distinct elements of a list, keeping the first appearance of each. -/
def dedupFirst {α : Type} [DecidableEq α] (l : List α) : List α :=
  dedupFirstAux l []

/-- Insert `x` in front of the first element `y` with `le x y`. -/
def insertLe {α : Type} (le : α → α → Bool) (x : α) : List α → List α
  | [] => [x]
  | y :: ys => if le x y then x :: y :: ys else y :: insertLe le x ys

/-- Stable insertion sort by the (total) Boolean relation `le`. -/
def sortLe {α : Type} (le : α → α → Bool) : List α → List α
  | [] => []
  | x :: xs => insertLe le x (sortLe le xs)

/-- Lexicographic comparison of character lists, by code point — the
semantics of Python's `<` on strings. -/
def charListLt : List Char → List Char → Bool
  | [], [] => false
  | [], _ :: _ => true
  | _ :: _, [] => false
  | a :: as, b :: bs => if a < b then true else if b < a then false else charListLt as bs

/-- Python's `<` on strings. -/
def strLt (a b : String) : Bool := charListLt a.toList b.toList

/-- Whether `pat` occurs as a contiguous substring of `s`. -/
def infixOfChars (pat : List Char) : List Char → Bool
  | [] => pat.isEmpty
  | c :: rest => pat.isPrefixOf (c :: rest) || infixOfChars pat rest

/-- Whether `pat` occurs as a contiguous substring of `s` (`pat in s`). -/
def strContains (s pat : String) : Bool := infixOfChars pat.toList s.toList

/-! ### `compute_data_density` -/

/-- The name of the category column. -/
def textureColumnName : String := "Texture_Class"

/-- `df["Texture_Class"].dropna()`: the non-missing category cells. -/
def nonNullCategories (df : DataFrame) : List Cell :=
  (df.getCol textureColumnName).filter (fun c => c ≠ Cell.null)

/-- `df["Texture_Class"].dropna().value_counts()`: each distinct
non-missing category with its occurrence count, sorted by descending
count (stable, first appearance first among ties). -/
def value_counts (df : DataFrame) : List (Cell × ℕ) :=
  sortLe (fun a b => b.2 ≤ a.2)
    ((dedupFirst (nonNullCategories df)).map
      (fun k => (k, (nonNullCategories df).count k)))

/-- The confidence label attached to a category counted `n` times. -/
def confidenceLabel (n : ℕ) : String :=
  if n < 5 then "Low Confidence (n=" ++ toString n ++ ")"
  else if n < 12 then "Medium Confidence (n=" ++ toString n ++ ")"
  else "High Confidence (n=" ++ toString n ++ ")"

/-- `compute_data_density`: empty mapping when the category column is
absent, otherwise each counted category mapped to its confidence label
(in `value_counts` iteration order, as the Python dict preserves it). -/
def compute_data_density (df : DataFrame) : List (Cell × String) :=
  if df.hasCol textureColumnName then
    (value_counts df).map (fun p => (p.1, confidenceLabel p.2))
  else []

/-! ### `generate_narrative_insights` -/

/-- Round `1000*q` to an integer, ties to even — the rounding of
`f"{r:.3f}"` (the matrix cells are exact 3-decimal multiples, so the tie
mode is only relevant to out-of-pipeline inputs). -/
def rndHalfEven (q : ℚ) : ℤ :=
  if q - ⌊q⌋ < 1/2 then ⌊q⌋
  else if 1/2 < q - ⌊q⌋ then ⌊q⌋ + 1
  else if ⌊q⌋ % 2 = 0 then ⌊q⌋ else ⌊q⌋ + 1

/-- Three decimal digits, zero padded. -/
def pad3 (m : ℕ) : String :=
  if m < 10 then "00" ++ toString m
  else if m < 100 then "0" ++ toString m
  else toString m

/-- `f"{q:.3f}"`: fixed-point rendering with exactly 3 decimals. -/
def fmt3 (q : ℚ) : String :=
  let n := rndHalfEven (1000 * q)
  (if n < 0 then "-" else "") ++ toString (n.natAbs / 1000) ++ "." ++ pad3 (n.natAbs % 1000)

/-- The insight template
`f"{col1} has {strength} {direction} correlation with {col2} (r = {r:.3f})."`. -/
def insightSentence (c1 strength direction c2 rs : String) : String :=
  c1 ++ " has " ++ strength ++ " " ++ direction ++ " correlation with " ++
    c2 ++ " (r = " ++ rs ++ ")."

/-- The loop body for one considered pair: `very strong` for `|r| > 0.7`,
`strong` for `|r| > 0.5`, otherwise no sentence (`continue`); direction
`positive` iff `r > 0`. -/
def pairSentence (c1 c2 : String) (r : ℚ) : Option String :=
  if 7/10 < |r| then
    some (insightSentence c1 "very strong"
      (if 0 < r then "positive" else "negative") c2 (fmt3 r))
  else if 1/2 < |r| then
    some (insightSentence c1 "strong"
      (if 0 < r then "positive" else "negative") c2 (fmt3 r))
  else none

/-- The ordered pairs scanned by the nested loops
`for col1 in corr.columns: for col2 in corr.columns: if col1 < col2:`. -/
def consideredPairs (m : CorrMatrix) : List (String × String) :=
  m.cols.flatMap (fun c1 =>
    m.cols.filterMap (fun c2 =>
      if strLt c1 c2 then some (c1, c2) else none))

/-- The correlation-derived sentences, in scan order. -/
def correlationInsights (m : CorrMatrix) : List String :=
  m.cols.flatMap (fun c1 =>
    m.cols.filterMap (fun c2 =>
      if strLt c1 c2 then pairSentence c1 c2 (m.entry c1 c2) else none))

/-- The density-derived tail of the insight list: a header plus one
indented line per category, or a single no-data sentence. -/
def densityInsights (density : List (Cell × String)) : List String :=
  if density.isEmpty then ["No texture classification data available."]
  else "Data density per texture class:" :: density.map (fun p => "  - " ++ p.2)

/-- `generate_narrative_insights`. -/
def generate_narrative_insights (corr : Option CorrMatrix)
    (density : List (Cell × String)) : List String :=
  (match corr with
   | none => ["Insufficient data for correlations (n < 2 valid rows)."]
   | some m => correlationInsights m) ++ densityInsights density

/-! ### `compute_statistics` (`df[available].describe().round(3)`) -/

/-- Whether a column holds a numeric pandas dtype: every cell numeric or
missing.  This is how `pd.read_csv` types a CSV column. -/
def numericDtype (cells : List Cell) : Bool :=
  cells.all (fun c => match c with | Cell.str _ => false | _ => true)

/-- The non-missing numeric values of a column, in row order. -/
def columnNumericValues (cells : List Cell) : List ℚ :=
  cells.filterMap toNumeric

/-- The non-missing numeric values of column `c`, ascending. -/
def sortedColumn (df : DataFrame) (c : String) : List ℚ :=
  sortLe (fun a b => decide (a ≤ b)) (columnNumericValues (df.getCol c))

/-- The numpy linear-interpolation quantile of an ascending list:
the value at fractional position `p * (n - 1)`. -/
def quantileLinear (sorted : List ℚ) (p : ℚ) : ℚ :=
  if sorted.length = 0 then 0
  else
    let pos : ℚ := p * ((sorted.length : ℚ) - 1)
    let lo : ℕ := (⌊pos⌋).toNat
    let vlo := sorted.getD lo 0
    let vhi := sorted.getD (min (lo + 1) (sorted.length - 1)) 0
    vlo + (pos - ⌊pos⌋) * (vhi - vlo)

/-- The sample standard deviation reported by `describe` (denominator
`n - 1`), rounded to 3 decimals; `0` models the `NaN` pandas reports
for `n ≤ 1`. -/
noncomputable def describeStd (vals : List ℚ) : ℚ :=
  round3 (Real.sqrt (((varSum vals : ℚ) : ℝ) / ((vals.length : ℝ) - 1)))

/-- The numeric `describe` table: one column per described feature, rows
`count, mean, std, min, 25%, 50%, 75%, max`. -/
structure NumericStats where
  cols : List String
  count : String → ℕ
  mean : String → ℚ
  std : String → ℚ
  minv : String → ℚ
  q25 : String → ℚ
  q50 : String → ℚ
  q75 : String → ℚ
  maxv : String → ℚ

/-- The object-dtype `describe` table (`count, unique, top, freq`),
produced when no selected column is numeric. -/
structure ObjectStats where
  cols : List String
  count : String → ℕ
  unique : String → ℕ
  top : String → Cell
  freq : String → ℕ

/-- The result of `compute_statistics`: the empty frame, or one of the
two `describe` shapes. -/
inductive StatsResult where
  | empty : StatsResult
  | numericTable : NumericStats → StatsResult
  | objectTable : ObjectStats → StatsResult

/-- The row index of a `describe` result. -/
def statIndexNames : StatsResult → List String
  | StatsResult.empty => []
  | StatsResult.numericTable _ => ["count", "mean", "std", "min", "25%", "50%", "75%", "max"]
  | StatsResult.objectTable _ => ["count", "unique", "top", "freq"]

/-- The column labels of a `describe` result. -/
def statsColumns : StatsResult → List String
  | StatsResult.empty => []
  | StatsResult.numericTable t => t.cols
  | StatsResult.objectTable t => t.cols

/-- The non-missing cells of column `c`. -/
def nonNullCells (df : DataFrame) (c : String) : List Cell :=
  (df.getCol c).filter (fun x => x ≠ Cell.null)

/-- `value_counts` of an arbitrary column (used for the `top`/`freq`
rows of the object `describe`). -/
def cellValueCounts (df : DataFrame) (c : String) : List (Cell × ℕ) :=
  sortLe (fun a b => b.2 ≤ a.2)
    ((dedupFirst (nonNullCells df c)).map
      (fun k => (k, (nonNullCells df c).count k)))

/-- `compute_statistics`: `describe` over the available catalog features.
`df.describe()` restricts to numeric-dtype columns when at least one is
present, and falls back to the object statistics otherwise. -/
noncomputable def compute_statistics (df : DataFrame) : StatsResult :=
  if (availableFeatures df).isEmpty then StatsResult.empty
  else
    let numericCols :=
      (availableFeatures df).filter (fun c => numericDtype (df.getCol c))
    if numericCols.isEmpty then
      StatsResult.objectTable
        { cols := availableFeatures df
          count := fun c => (nonNullCells df c).length
          unique := fun c => (dedupFirst (nonNullCells df c)).length
          top := fun c => ((cellValueCounts df c).headD (Cell.null, 0)).1
          freq := fun c => ((cellValueCounts df c).headD (Cell.null, 0)).2 }
    else
      StatsResult.numericTable
        { cols := numericCols
          count := fun c => (columnNumericValues (df.getCol c)).length
          mean := fun c => roundq3 (listMean (columnNumericValues (df.getCol c)))
          std := fun c => describeStd (columnNumericValues (df.getCol c))
          minv := fun c => roundq3 ((sortedColumn df c).headD 0)
          q25 := fun c => roundq3 (quantileLinear (sortedColumn df c) (1/4))
          q50 := fun c => roundq3 (quantileLinear (sortedColumn df c) (1/2))
          q75 := fun c => roundq3 (quantileLinear (sortedColumn df c) (3/4))
          maxv := fun c => roundq3 ((sortedColumn df c).getLastD 0) }

/-! ### `group_by_texture` -/

/-- The grouped-means table: one row per category, one column per
numeric feature; `value k c` is the group mean. -/
structure GroupedTable where
  keys : List Cell
  cols : List String
  value : Cell → String → ℚ

/-- The row indices belonging to category `k`. -/
def rowsWithCategory (df : DataFrame) (k : Cell) : List ℕ :=
  (List.range df.nrows).filter (fun i => df.cellAt textureColumnName i == k)

/-- The group mean of feature `c` over category `k` (missing values
skipped), rounded to 3 decimals. -/
def groupMean (df : DataFrame) (k : Cell) (c : String) : ℚ :=
  roundq3 (listMean
    (((rowsWithCategory df k).map (fun i => df.cellAt c i)).filterMap toNumeric))

/-- `group_by_texture`: empty when the category column is absent, has no
non-missing value, or no catalog feature is present; otherwise the per
category means of the numeric features (`mean(numeric_only=True)` drops
object-dtype columns).  Keys are kept in first-appearance order, a
deterministic order as the spec requires. -/
def group_by_texture (df : DataFrame) : Option GroupedTable :=
  if ¬ df.hasCol textureColumnName then none
  else if (nonNullCategories df).isEmpty then none
  else if (availableFeatures df).isEmpty then none
  else some
    { keys := dedupFirst (nonNullCategories df)
      cols := (availableFeatures df).filter (fun c => numericDtype (df.getCol c))
      value := groupMean df }

/-! ### `df_to_markdown` and `generate_markdown_report` -/

/-- `str(x)` on a 3-decimal float: fixed 3 decimals with the trailing
zeros dropped (but at least one digit after the point), which is how
Python prints the floats produced by `.round(3)`. -/
def qToDisplay (q : ℚ) : String :=
  let cs := (fmt3 q).toList.reverse
  let cs2 := cs.dropWhile (fun ch => ch = '0')
  String.mk (if cs2.headD ' ' = '.' then ('0' :: cs2).reverse else cs2.reverse)

/-- `str` of a cell (used for object `describe` and density keys). -/
def showCell : Cell → String
  | Cell.num q => qToDisplay q
  | Cell.str s => s
  | Cell.null => "nan"

/-- A table already rendered to strings, as `df_to_markdown` consumes it:
the column header and the stringified body rows (`df.iterrows` yields
values only — the index is not printed). -/
structure RenderTable where
  header : List String
  rows : List (List String)

/-- `df_to_markdown` on a non-empty frame: header row, separator row,
one line per data row, joined with newlines. -/
def df_to_markdown (t : RenderTable) : String :=
  String.intercalate "\n"
    (("| " ++ String.intercalate " | " t.header ++ " |") ::
     ("| " ++ String.intercalate " | " (t.header.map (fun _ => "---")) ++ " |") ::
     t.rows.map (fun r => "| " ++ String.intercalate " | " r ++ " |"))

/-- Render the correlation matrix for markdown. -/
def corrRender (m : CorrMatrix) : RenderTable :=
  { header := m.cols
    rows := m.cols.map (fun c1 => m.cols.map (fun c2 => qToDisplay (m.entry c1 c2))) }

/-- Render the grouped-means table for markdown. -/
def groupedRender (g : GroupedTable) : RenderTable :=
  { header := g.cols
    rows := g.keys.map (fun k => g.cols.map (fun c => qToDisplay (g.value k c))) }

/-- Render a `describe` table for markdown (one body row per statistic). -/
def statsRender : StatsResult → RenderTable
  | StatsResult.empty => { header := [], rows := [] }
  | StatsResult.numericTable t =>
    { header := t.cols
      rows := [t.cols.map (fun c => qToDisplay (t.count c)),
               t.cols.map (fun c => qToDisplay (t.mean c)),
               t.cols.map (fun c => qToDisplay (t.std c)),
               t.cols.map (fun c => qToDisplay (t.minv c)),
               t.cols.map (fun c => qToDisplay (t.q25 c)),
               t.cols.map (fun c => qToDisplay (t.q50 c)),
               t.cols.map (fun c => qToDisplay (t.q75 c)),
               t.cols.map (fun c => qToDisplay (t.maxv c))] }
  | StatsResult.objectTable t =>
    { header := t.cols
      rows := [t.cols.map (fun c => qToDisplay (t.count c)),
               t.cols.map (fun c => qToDisplay (t.unique c)),
               t.cols.map (fun c => showCell (t.top c)),
               t.cols.map (fun c => qToDisplay (t.freq c))] }

/-- Whether the grouped frame is `.empty` (either axis of length 0). -/
def groupedIsEmpty : Option GroupedTable → Bool
  | none => true
  | some g => g.keys.isEmpty || g.cols.isEmpty

/-- Whether the stats frame is `.empty`. -/
def statsIsEmpty : StatsResult → Bool
  | StatsResult.empty => true
  | _ => false

/-- `generate_markdown_report`: the full text written to
`correlations.md` (the file side effect is modelled by returning the
written string). -/
noncomputable def generate_markdown_report (corr : Option CorrMatrix)
    (grouped : Option GroupedTable) (stats : StatsResult)
    (density : List (Cell × String)) : String :=
  "# Correlation Report\n\n" ++
  "## Human-Readable Insights\n" ++
  String.join ((generate_narrative_insights corr density).map
    (fun i => "- " ++ i ++ "\n")) ++
  "\n" ++
  "## Correlation Matrix (Selected Features)\n" ++
  (match corr with
   | some m => df_to_markdown (corrRender m) ++ "\n\n"
   | none => "_Insufficient valid data for correlation matrix_\n\n") ++
  "## Grouped Averages by Texture Class\n" ++
  (match grouped with
   | some g =>
     if g.keys.isEmpty || g.cols.isEmpty then "_No texture groups available_\n\n"
     else df_to_markdown (groupedRender g) ++ "\n\n"
   | none => "_No texture groups available_\n\n") ++
  "## Summary Statistics\n" ++
  (match stats with
   | StatsResult.empty => "_No statistics available_\n\n"
   | t => df_to_markdown (statsRender t) ++ "\n\n") ++
  "## Data Density & Confidence\n" ++
  (if density.isEmpty then "_No texture classification data available_\n"
   else String.join (density.map
     (fun p => "- " ++ showCell p.1 ++ ": " ++ p.2 ++ "\n")))

/-! ### `generate_correlated_images`

The file system is abstracted: the directory listing is a list of names,
and an oracle `copyOk` tells whether `shutil.copy2` succeeds on a given
source file.  The Python loop has no exception handler, so a failing
copy raises out of the loop; the Boolean in the result records whether
the loop was aborted by such an exception. -/

/-- `os.path.splitext` on the characters of a name: split at the last
dot (extension includes the dot). -/
def splitExtChars (s : List Char) : List Char × List Char :=
  let p := s.reverse.span (fun ch => ch ≠ '.')
  match p.2 with
  | [] => (s, [])
  | _ :: baseRev => (baseRev.reverse, '.' :: p.1.reverse)

/-- Fuel-driven helper for `removeSub` (structural recursion so the
kernel can evaluate it; the fuel is the length of the string). -/
def removeSubFuel (pat : List Char) : ℕ → List Char → List Char
  | _, [] => []
  | 0, l => l
  | fuel + 1, c :: rest =>
    if pat.isPrefixOf (c :: rest) ∧ pat ≠ [] then
      removeSubFuel pat fuel ((c :: rest).drop pat.length)
    else c :: removeSubFuel pat fuel rest

/-- `s.replace(pat, "")` for a non-empty pattern: remove every
occurrence, scanning left to right. -/
def removeSub (pat s : List Char) : List Char := removeSubFuel pat s.length s

/-- `filename.endswith("_analyzed.jpg") or filename.endswith("_analyzed.jpeg")`. -/
def isAnalyzedName (f : String) : Bool :=
  "_analyzed.jpg".toList.isSuffixOf f.toList ||
    "_analyzed.jpeg".toList.isSuffixOf f.toList

/-- The destination name: strip `_analyzed` from the stem and append
`_correlated`, preserving the extension. -/
def correlatedName (f : String) : String :=
  let p := splitExtChars f.toList
  String.mk (removeSub "_analyzed".toList p.1 ++ "_correlated".toList ++ p.2)

/-- The copy loop of `generate_correlated_images`: returns the
destination names created, and whether an unhandled copy exception
aborted the loop (skipping every later file). -/
def generate_correlated_images : List String → (String → Bool) → List String × Bool
  | [], _ => ([], false)
  | f :: rest, copyOk =>
    if isAnalyzedName f then
      if copyOk f then
        let r := generate_correlated_images rest copyOk
        (correlatedName f :: r.1, r.2)
      else ([], true)
    else generate_correlated_images rest copyOk

/-! ### `main` -/

/-- The external world `main` interacts with: the working directory
name, whether `field_data.csv` exists, its parsed contents, the
directory listing and the copy-success oracle. -/
structure Env where
  workingDir : String
  csvExists : Bool
  df : DataFrame
  listing : List String
  copyOk : String → Bool

/-- The observable outcome of one run of `main`: console lines, the
report written (if any), the image files copied, and whether the run
died on an unhandled exception. -/
structure RunResult where
  printed : List String
  report : Option String
  copied : List String
  crashed : Bool

/-- The message printed when the input file is missing. -/
def errNotFound (workingDir : String) : String :=
  "❌ ERROR: field_data.csv not found at " ++ workingDir ++ "/field_data.csv"

/-- `main`: early return with an error message when the CSV is absent;
otherwise compute the four artifacts, write the report, copy the images
(crashing if a copy raises) and print the progress messages. -/
noncomputable def main (env : Env) : RunResult :=
  if env.csvExists then
    let df := env.df
    let corr := compute_correlations df
    let grouped := group_by_texture df
    let stats := compute_statistics df
    let density := compute_data_density df
    let reportStr := generate_markdown_report corr grouped stats density
    let copyResult := generate_correlated_images env.listing env.copyOk
    let pre := ["Loaded " ++ toString df.nrows ++ " rows from CSV",
                "✓ correlations.md generated"]
    if copyResult.2 then
      { printed := pre, report := some reportStr,
        copied := copyResult.1, crashed := true }
    else
      { printed := pre ++ ["✓ Correlated images created",
          "🎉 Correlator complete — outputs in " ++ env.workingDir],
        report := some reportStr, copied := copyResult.1, crashed := false }
  else
    { printed := [errNotFound env.workingDir], report := none,
      copied := [], crashed := false }

/-- The number of occurrences of `x` in `l` (propositional equality). -/
def countOcc {α : Type} [DecidableEq α] (x : α) (l : List α) : ℕ :=
  l.countP (fun y => decide (y = x))

/-- A list of values that is not constant: it holds two distinct
elements.  (A column that is constant on the valid rows has zero
variance and pandas reports `NaN` for every correlation with it.) -/
def twoDistinct (l : List ℚ) : Prop := ∃ x ∈ l, ∃ y ∈ l, x ≠ y

instance (l : List ℚ) : Decidable (twoDistinct l) := by
  unfold twoDistinct
  infer_instance

/-! ## Supporting lemmas -/

theorem mem_dedupFirstAux {α : Type} [DecidableEq α] (l : List α) :
    ∀ (seen : List α) (x : α), x ∈ dedupFirstAux l seen ↔ x ∈ l ∧ x ∉ seen := by
  induction l with
  | nil => intro seen x; simp [dedupFirstAux]
  | cons c rest ih =>
    intro seen x
    unfold dedupFirstAux
    by_cases hc : c ∈ seen
    · rw [if_pos hc, ih]
      constructor
      · rintro ⟨hx, hns⟩
        exact ⟨List.mem_cons_of_mem _ hx, hns⟩
      · rintro ⟨hx, hns⟩
        rcases List.mem_cons.mp hx with rfl | hx
        · exact absurd hc hns
        · exact ⟨hx, hns⟩
    · rw [if_neg hc]
      rw [List.mem_cons, ih]
      constructor
      · rintro (rfl | ⟨hx, hns⟩)
        · exact ⟨List.mem_cons_self _ _, hc⟩
        · refine ⟨List.mem_cons_of_mem _ hx, fun hs => hns (List.mem_cons_of_mem _ hs)⟩
      · rintro ⟨hx, hns⟩
        rcases List.mem_cons.mp hx with rfl | hx
        · exact Or.inl rfl
        · by_cases hxc : x = c
          · exact Or.inl hxc
          · exact Or.inr ⟨hx, fun hs => by
              rcases List.mem_cons.mp hs with h | h
              · exact hxc h
              · exact hns h⟩

theorem mem_dedupFirst {α : Type} [DecidableEq α] (l : List α) (x : α) :
    x ∈ dedupFirst l ↔ x ∈ l := by
  rw [dedupFirst, mem_dedupFirstAux]
  simp

theorem mem_insertLe {α : Type} (le : α → α → Bool) (y x : α) (l : List α) :
    x ∈ insertLe le y l ↔ x = y ∨ x ∈ l := by
  induction l with
  | nil => simp [insertLe]
  | cons z zs ih =>
    unfold insertLe
    by_cases h : le y z
    · rw [if_pos h]
      simp [List.mem_cons]
    · rw [if_neg h]
      rw [List.mem_cons, ih, List.mem_cons]
      tauto

theorem mem_sortLe {α : Type} (le : α → α → Bool) (l : List α) (x : α) :
    x ∈ sortLe le l ↔ x ∈ l := by
  induction l with
  | nil => simp [sortLe]
  | cons z zs ih =>
    unfold sortLe
    rw [mem_insertLe, ih, List.mem_cons]

theorem mem_value_counts (df : DataFrame) (k : Cell) (n : ℕ) :
    (k, n) ∈ value_counts df ↔
      k ∈ nonNullCategories df ∧ n = (nonNullCategories df).count k := by
  unfold value_counts
  rw [mem_sortLe, List.mem_map]
  constructor
  · rintro ⟨k', hk', heq⟩
    obtain ⟨rfl, rfl⟩ := Prod.mk.injEq .. ▸ heq
    exact ⟨(mem_dedupFirst _ _).mp hk', rfl⟩
  · rintro ⟨hk, rfl⟩
    exact ⟨k, (mem_dedupFirst _ _).mpr hk, rfl⟩

theorem charListLt_asymm :
    ∀ x y : List Char, charListLt x y = true → charListLt y x = false := by
  intro x
  induction x with
  | nil =>
    intro y hy
    cases y with
    | nil => exact absurd hy (by simp [charListLt])
    | cons b bs => rfl
  | cons a as ih =>
    intro y hy
    cases y with
    | nil => exact absurd hy (by simp [charListLt])
    | cons b bs =>
      unfold charListLt at hy ⊢
      by_cases hab : a < b
      · rw [if_neg (lt_asymm hab), if_pos hab]
      · rw [if_neg hab] at hy
        by_cases hba : b < a
        · rw [if_pos hba] at hy
          exact absurd hy (by simp)
        · rw [if_neg hba] at hy
          rw [if_neg hba, if_neg hab]
          exact ih bs hy

theorem charListLt_total :
    ∀ x y : List Char, x ≠ y → charListLt x y = true ∨ charListLt y x = true := by
  intro x
  induction x with
  | nil =>
    intro y hy
    cases y with
    | nil => exact absurd rfl hy
    | cons b bs => exact Or.inl rfl
  | cons a as ih =>
    intro y hy
    cases y with
    | nil => exact Or.inr rfl
    | cons b bs =>
      rcases lt_trichotomy a b with h | rfl | h
      · exact Or.inl (by unfold charListLt; rw [if_pos h])
      · have hne : as ≠ bs := fun he => hy (by rw [he])
        rcases ih bs hne with h | h
        · exact Or.inl (by unfold charListLt; rw [if_neg (lt_irrefl a), if_neg (lt_irrefl a)]; exact h)
        · exact Or.inr (by unfold charListLt; rw [if_neg (lt_irrefl a), if_neg (lt_irrefl a)]; exact h)
      · exact Or.inr (by unfold charListLt; rw [if_pos h])

theorem strLt_total (a b : String) (h : a ≠ b) :
    strLt a b = true ∨ strLt b a = true := by
  refine charListLt_total a.toList b.toList (fun he => h ?_)
  cases a
  cases b
  simpa [String.toList] using congrArg String.mk he

theorem countOcc_eq_zero {α : Type} [DecidableEq α] {x : α} {l : List α}
    (h : x ∉ l) : countOcc x l = 0 :=
  List.countP_eq_zero.mpr (fun _a ha hp => h (of_decide_eq_true hp ▸ ha))

theorem countOcc_eq_one {α : Type} [DecidableEq α] {x : α} {l : List α}
    (hnd : l.Nodup) (hx : x ∈ l) : countOcc x l = 1 := by
  induction l with
  | nil => exact absurd hx (List.not_mem_nil x)
  | cons y ys ih =>
    rw [countOcc, List.countP_cons]
    rcases List.mem_cons.mp hx with rfl | hx
    · rw [if_pos (by simp)]
      have h0 : countOcc x ys = 0 := countOcc_eq_zero ((List.nodup_cons.mp hnd).1)
      rw [countOcc] at h0
      rw [h0]
    · have hne : ¬(y = x) := fun he =>
        (List.nodup_cons.mp hnd).1 (he ▸ hx)
      rw [if_neg (by simpa using hne), Nat.add_zero]
      exact ih (List.nodup_cons.mp hnd).2 hx

theorem mem_consideredPairs (m : CorrMatrix) (p : String × String) :
    p ∈ consideredPairs m ↔
      p.1 ∈ m.cols ∧ p.2 ∈ m.cols ∧ strLt p.1 p.2 = true := by
  unfold consideredPairs
  rw [List.mem_flatMap]
  constructor
  · rintro ⟨c1, hc1, hin⟩
    rw [List.mem_filterMap] at hin
    obtain ⟨c2, hc2, heq⟩ := hin
    by_cases hlt : strLt c1 c2
    · rw [if_pos hlt] at heq
      obtain rfl := Option.some.injEq .. ▸ heq
      exact ⟨hc1, hc2, hlt⟩
    · rw [if_neg hlt] at heq
      exact absurd heq (by simp)
  · rintro ⟨h1, h2, h3⟩
    refine ⟨p.1, h1, List.mem_filterMap.mpr ⟨p.2, h2, ?_⟩⟩
    rw [if_pos h3]

theorem nodup_consideredPairs (m : CorrMatrix) (h : m.cols.Nodup) :
    (consideredPairs m).Nodup := by
  have hfst : ∀ (c1 : String) (q : String × String),
      q ∈ m.cols.filterMap (fun c2 =>
        if strLt c1 c2 then some (c1, c2) else none) → q.1 = c1 := by
    intro c1 q hq
    rw [List.mem_filterMap] at hq
    obtain ⟨c2, _, heq⟩ := hq
    by_cases hlt : strLt c1 c2
    · rw [if_pos hlt] at heq
      obtain rfl := Option.some.injEq .. ▸ heq
      rfl
    · rw [if_neg hlt] at heq
      exact absurd heq (by simp)
  unfold consideredPairs
  rw [List.nodup_flatMap]
  constructor
  · intro c1 _
    refine List.Nodup.filterMap ?_ h
    intro a a' q hqa hqa'
    have h1 : (if strLt c1 a then some (c1, a) else none) = some q := hqa
    have h2 : (if strLt c1 a' then some (c1, a') else none) = some q := hqa'
    by_cases hlt : strLt c1 a
    · rw [if_pos hlt] at h1
      by_cases hlt' : strLt c1 a'
      · rw [if_pos hlt'] at h2
        have h3 : (c1, a) = (c1, a') := Option.some_injective _ (h1.trans h2.symm)
        exact (Prod.mk.injEq .. ▸ h3).2
      · rw [if_neg hlt'] at h2
        exact absurd h2 (by simp)
    · rw [if_neg hlt] at h1
      exact absurd h1 (by simp)
  · refine h.imp ?_
    intro c1 c1' hne q hq hq'
    exact hne ((hfst c1 q hq).symm.trans (hfst c1' q hq'))

theorem correlationInsights_eq (m : CorrMatrix) :
    correlationInsights m =
      (consideredPairs m).filterMap
        (fun p => pairSentence p.1 p.2 (m.entry p.1 p.2)) := by
  unfold correlationInsights consideredPairs
  rw [List.filterMap_flatMap]
  apply List.flatMap_congr
  intro c1 _
  rw [List.filterMap_filterMap]
  apply List.filterMap_congr
  intro c2 _
  by_cases hlt : strLt c1 c2
  · rw [if_pos hlt, if_pos hlt]
    rfl
  · rw [if_neg hlt, if_neg hlt]
    rfl

theorem columnNumericValues_length_of_numericDtype (cells : List Cell)
    (h : numericDtype cells = true) :
    (columnNumericValues cells).length =
      (cells.filter (fun x => x ≠ Cell.null)).length := by
  induction cells with
  | nil => rfl
  | cons c rest ih =>
    have hall := List.all_eq_true.mp h
    have hrest : numericDtype rest = true :=
      List.all_eq_true.mpr (fun x hx => hall x (List.mem_cons_of_mem _ hx))
    cases c with
    | num q =>
      simp only [columnNumericValues, List.filterMap_cons, toNumeric] at *
      rw [List.filter_cons_of_pos (by simp)]
      simpa using ih hrest
    | str s => exact absurd (hall (Cell.str s) (List.mem_cons_self _ _)) (by simp)
    | null =>
      simp only [columnNumericValues, List.filterMap_cons, toNumeric] at *
      rw [List.filter_cons_of_neg (by simp)]
      exact ih hrest

theorem exists_numericTable (df : DataFrame) (c : String)
    (hc : c ∈ availableFeatures df)
    (hnum : numericDtype (df.getCol c) = true) :
    ∃ t, compute_statistics df = StatsResult.numericTable t ∧ c ∈ t.cols ∧
      t.count c = (columnNumericValues (df.getCol c)).length ∧
      t.mean c = roundq3 (listMean (columnNumericValues (df.getCol c))) := by
  have hmem : c ∈ (availableFeatures df).filter
      (fun c' => numericDtype (df.getCol c')) :=
    List.mem_filter.mpr ⟨hc, hnum⟩
  have h1 : ¬ (availableFeatures df).isEmpty = true := by
    rcases hav : availableFeatures df with _ | _
    · rw [hav] at hc
      exact absurd hc (List.not_mem_nil c)
    · simp
  have h2 : ¬ ((availableFeatures df).filter
      (fun c' => numericDtype (df.getCol c'))).isEmpty = true := by
    rcases hfe : (availableFeatures df).filter
        (fun c' => numericDtype (df.getCol c')) with _ | _
    · rw [hfe] at hmem
      exact absurd hmem (List.not_mem_nil c)
    · simp
  have heq : compute_statistics df = StatsResult.numericTable
      { cols := (availableFeatures df).filter
          (fun c' => numericDtype (df.getCol c'))
        count := fun c' => (columnNumericValues (df.getCol c')).length
        mean := fun c' => roundq3 (listMean (columnNumericValues (df.getCol c')))
        std := fun c' => describeStd (columnNumericValues (df.getCol c'))
        minv := fun c' => roundq3 ((sortedColumn df c').headD 0)
        q25 := fun c' => roundq3 (quantileLinear (sortedColumn df c') (1/4))
        q50 := fun c' => roundq3 (quantileLinear (sortedColumn df c') (1/2))
        q75 := fun c' => roundq3 (quantileLinear (sortedColumn df c') (3/4))
        maxv := fun c' => roundq3 ((sortedColumn df c').getLastD 0) } := by
    unfold compute_statistics
    rw [if_neg h1, if_neg h2]
  exact ⟨_, heq, hmem, rfl, rfl⟩

theorem featureColumn_length (df : DataFrame) (c : String) :
    (featureColumn df c).length = (validRowIdx df).length := by
  simp [featureColumn]

theorem covSum_comm (xs ys : List ℚ) (h : xs.length = ys.length) :
    covSum xs ys = covSum ys xs := by
  rw [covSum, covSum, h]
  exact Finset.sum_congr rfl (fun i _ => mul_comm _ _)

theorem varSum_nonneg (xs : List ℚ) : 0 ≤ varSum xs := by
  rw [varSum, covSum]
  exact Finset.sum_nonneg (fun i _ => mul_self_nonneg _)

theorem varSum_pos (xs : List ℚ) (h : twoDistinct xs) : 0 < varSum xs := by
  obtain ⟨x, hx, y, hy, hxy⟩ := h
  rcases lt_or_eq_of_le (varSum_nonneg xs) with hlt | heq
  · exact hlt
  · exfalso
    rw [varSum, covSum] at heq
    have hz := (Finset.sum_eq_zero_iff_of_nonneg
      (fun i _ => mul_self_nonneg
        (xs.getD i 0 - listMean xs))).mp heq.symm
    have hall : ∀ i, i < xs.length → xs.getD i 0 = listMean xs := by
      intro i hi
      have h0 := hz i (Finset.mem_range.mpr hi)
      have := mul_self_eq_zero.mp h0
      linarith
    obtain ⟨i, hi, rfl⟩ := List.mem_iff_getElem.mp hx
    obtain ⟨j, hj, rfl⟩ := List.mem_iff_getElem.mp hy
    apply hxy
    rw [← List.getD_eq_getElem xs 0 hi, ← List.getD_eq_getElem xs 0 hj,
      hall i hi, hall j hj]

theorem abs_covSum_le (xs ys : List ℚ) (h : xs.length = ys.length) :
    |((covSum xs ys : ℚ) : ℝ)| ≤
      Real.sqrt (((varSum xs : ℚ) : ℝ) * ((varSum ys : ℚ) : ℝ)) := by
  have hcov : ((covSum xs ys : ℚ) : ℝ) =
      ∑ i ∈ Finset.range xs.length,
        ((xs.getD i 0 - listMean xs : ℚ) : ℝ) *
          ((ys.getD i 0 - listMean ys : ℚ) : ℝ) := by
    rw [covSum]
    push_cast
    rfl
  have hvx : ((varSum xs : ℚ) : ℝ) =
      ∑ i ∈ Finset.range xs.length,
        ((xs.getD i 0 - listMean xs : ℚ) : ℝ) ^ 2 := by
    rw [varSum, covSum]
    push_cast
    exact Finset.sum_congr rfl (fun i _ => (sq _).symm)
  have hvy : ((varSum ys : ℚ) : ℝ) =
      ∑ i ∈ Finset.range xs.length,
        ((ys.getD i 0 - listMean ys : ℚ) : ℝ) ^ 2 := by
    rw [varSum, covSum, ← h]
    push_cast
    exact Finset.sum_congr rfl (fun i _ => (sq _).symm)
  have hsplit : Real.sqrt (((varSum xs : ℚ) : ℝ) * ((varSum ys : ℚ) : ℝ)) =
      Real.sqrt ((varSum xs : ℚ) : ℝ) * Real.sqrt ((varSum ys : ℚ) : ℝ) :=
    Real.sqrt_mul (by exact_mod_cast varSum_nonneg xs) _
  rw [abs_le, hcov, hsplit]
  constructor
  · have h2 := Real.sum_mul_le_sqrt_mul_sqrt (Finset.range xs.length)
      (fun i => ((xs.getD i 0 - listMean xs : ℚ) : ℝ))
      (fun i => -((ys.getD i 0 - listMean ys : ℚ) : ℝ))
    have e1 : ∑ i ∈ Finset.range xs.length,
        ((xs.getD i 0 - listMean xs : ℚ) : ℝ) *
          -((ys.getD i 0 - listMean ys : ℚ) : ℝ) =
        -∑ i ∈ Finset.range xs.length,
          ((xs.getD i 0 - listMean xs : ℚ) : ℝ) *
            ((ys.getD i 0 - listMean ys : ℚ) : ℝ) := by
      rw [← Finset.sum_neg_distrib]
      exact Finset.sum_congr rfl (fun i _ => mul_neg _ _)
    have e2 : ∑ i ∈ Finset.range xs.length,
        (-((ys.getD i 0 - listMean ys : ℚ) : ℝ)) ^ 2 =
        ∑ i ∈ Finset.range xs.length,
          ((ys.getD i 0 - listMean ys : ℚ) : ℝ) ^ 2 :=
      Finset.sum_congr rfl (fun i _ => neg_sq _)
    rw [e1, e2] at h2
    rw [hvx, hvy]
    linarith [h2]
  · have h1 := Real.sum_mul_le_sqrt_mul_sqrt (Finset.range xs.length)
      (fun i => ((xs.getD i 0 - listMean xs : ℚ) : ℝ))
      (fun i => ((ys.getD i 0 - listMean ys : ℚ) : ℝ))
    rw [hvx, hvy]
    exact h1

theorem abs_pearson_le_one (xs ys : List ℚ) (hx : 0 < varSum xs)
    (hy : 0 < varSum ys) (h : xs.length = ys.length) :
    |pearson xs ys| ≤ 1 := by
  rw [pearson]
  have hd : 0 < Real.sqrt (((varSum xs : ℚ) : ℝ) * ((varSum ys : ℚ) : ℝ)) :=
    Real.sqrt_pos.mpr (mul_pos (by exact_mod_cast hx) (by exact_mod_cast hy))
  rw [abs_div, abs_of_pos hd]
  exact (div_le_one hd).mpr (abs_covSum_le xs ys h)

theorem pearson_self (xs : List ℚ) (hx : 0 < varSum xs) : pearson xs xs = 1 := by
  rw [pearson]
  have hx' : (0 : ℝ) < ((varSum xs : ℚ) : ℝ) := by exact_mod_cast hx
  rw [Real.sqrt_mul_self hx'.le]
  exact div_self hx'.ne'

theorem pearson_comm (xs ys : List ℚ) (h : xs.length = ys.length) :
    pearson xs ys = pearson ys xs := by
  rw [pearson, pearson, covSum_comm xs ys h, mul_comm]

theorem round3_one : round3 1 = 1 := by
  rw [round3]
  have h : (1000 : ℝ) * 1 = ((1000 : ℤ) : ℝ) := by norm_num
  rw [h, round_intCast]
  norm_num

theorem round3_zero_of_num_zero (x : ℝ) (h : x = 0) : round3 x = 0 := by
  rw [round3, h]
  norm_num

theorem round3_bounds (x : ℝ) (h : |x| ≤ 1) :
    -1 ≤ round3 x ∧ round3 x ≤ 1 := by
  rcases abs_le.mp h with ⟨hlo, hhi⟩
  have hup : round (1000 * x) ≤ 1000 := by
    rw [round_eq]
    have h1 : (1000 : ℝ) * x + 1/2 < ((1001 : ℤ) : ℝ) := by
      push_cast
      nlinarith
    have := Int.floor_lt.mpr h1
    omega
  have hdown : -1000 ≤ round (1000 * x) := by
    rw [round_eq]
    refine Int.le_floor.mpr ?_
    push_cast
    nlinarith
  constructor
  · rw [round3, le_div_iff₀ (by norm_num)]
    exact_mod_cast hdown
  · rw [round3, div_le_one (by norm_num)]
    exact_mod_cast hup

/-! ## Claim theorems -/

/-- Claim C1 (amended): for a dataset with at least 2 numeric catalog
feature columns, at least 2 fully valid rows, and every selected column
non-constant on the valid rows, `compute_correlations` returns a matrix
that is symmetric, has 1.0 on the diagonal, and every cell in
`[-1, 1]`.  (The non-constancy hypothesis is forced by the
counterexample: a constant column has zero variance and its pandas
correlations — including the diagonal cell — are `NaN`, not `1.0`.) -/
theorem C1_corr_matrix_shape (df : DataFrame)
    (h2c : 2 ≤ (availableFeatures df).length)
    (h2r : 2 ≤ (validRowIdx df).length)
    (hnc : ∀ c ∈ availableFeatures df, twoDistinct (featureColumn df c)) :
    (∃ M, compute_correlations df = some M) ∧
      ∀ M, compute_correlations df = some M →
        M.cols = availableFeatures df ∧
          (∀ c1 ∈ M.cols, ∀ c2 ∈ M.cols, M.entry c1 c2 = M.entry c2 c1) ∧
          (∀ c ∈ M.cols, M.entry c c = 1) ∧
          (∀ c1 ∈ M.cols, ∀ c2 ∈ M.cols,
            -1 ≤ M.entry c1 c2 ∧ M.entry c1 c2 ≤ 1) := by
  have hM : compute_correlations df = some
      { cols := availableFeatures df
        entry := fun c1 c2 =>
          round3 (pearson (featureColumn df c1) (featureColumn df c2)) } := by
    unfold compute_correlations
    rw [if_neg (by omega), if_neg (by omega)]
  refine ⟨⟨_, hM⟩, ?_⟩
  intro M hM'
  have hMe := Option.some_injective _ (hM.symm.trans hM')
  subst hMe
  have hlen : ∀ c1 c2 : String,
      (featureColumn df c1).length = (featureColumn df c2).length := by
    intro c1 c2
    rw [featureColumn_length, featureColumn_length]
  refine ⟨rfl, ?_, ?_, ?_⟩
  · intro c1 _ c2 _
    show round3 (pearson (featureColumn df c1) (featureColumn df c2)) =
      round3 (pearson (featureColumn df c2) (featureColumn df c1))
    rw [pearson_comm _ _ (hlen c1 c2)]
  · intro c hc
    show round3 (pearson (featureColumn df c) (featureColumn df c)) = 1
    rw [pearson_self _ (varSum_pos _ (hnc c hc)), round3_one]
  · intro c1 hc1 c2 hc2
    exact round3_bounds _ (abs_pearson_le_one _ _
      (varSum_pos _ (hnc c1 hc1)) (varSum_pos _ (hnc c2 hc2)) (hlen c1 c2))

/-- Witness for C1 at a concrete dataset with two non-constant numeric
columns and two valid rows: the returned matrix is non-empty. -/
theorem C1_corr_matrix_shape_witness :
    compute_correlations
        ⟨[("Brightness", [Cell.num 1, Cell.num 2]),
          ("Mean_R", [Cell.num 3, Cell.num 1])]⟩ ≠ none := by
  obtain ⟨M, hM⟩ := (C1_corr_matrix_shape
    ⟨[("Brightness", [Cell.num 1, Cell.num 2]),
      ("Mean_R", [Cell.num 3, Cell.num 1])]⟩
    (by decide) (by decide) (by decide)).1
  rw [hM]
  exact Option.some_ne_none M

/-- Counterexample to C1 as stated: with the constant numeric column
`Brightness = [1, 1]` (and valid rows and columns both ≥ 2), the
diagonal cell at `Brightness` is not `1.0` — pandas divides by the zero
standard deviation and produces `NaN` (modelled by Lean's zero
division), so the returned matrix violates the unit-diagonal clause. -/
theorem C1_corr_matrix_shape_counterexample :
    compute_correlations
        ⟨[("Brightness", [Cell.num 1, Cell.num 1]),
          ("Mean_R", [Cell.num 1, Cell.num 2])]⟩ ≠ none ∧
      ∀ M, compute_correlations
          ⟨[("Brightness", [Cell.num 1, Cell.num 1]),
            ("Mean_R", [Cell.num 1, Cell.num 2])]⟩ = some M →
        "Brightness" ∈ M.cols ∧ M.entry "Brightness" "Brightness" ≠ 1 := by
  have hM : compute_correlations
      ⟨[("Brightness", [Cell.num 1, Cell.num 1]),
        ("Mean_R", [Cell.num 1, Cell.num 2])]⟩ = some
      { cols := availableFeatures
          ⟨[("Brightness", [Cell.num 1, Cell.num 1]),
            ("Mean_R", [Cell.num 1, Cell.num 2])]⟩
        entry := fun c1 c2 =>
          round3 (pearson
            (featureColumn ⟨[("Brightness", [Cell.num 1, Cell.num 1]),
              ("Mean_R", [Cell.num 1, Cell.num 2])]⟩ c1)
            (featureColumn ⟨[("Brightness", [Cell.num 1, Cell.num 1]),
              ("Mean_R", [Cell.num 1, Cell.num 2])]⟩ c2)) } := by
    unfold compute_correlations
    rw [if_neg (by decide), if_neg (by decide)]
  constructor
  · rw [hM]
    exact Option.some_ne_none _
  · intro M hM'
    have hMe := Option.some_injective _ (hM.symm.trans hM')
    subst hMe
    refine ⟨by decide, ?_⟩
    have hl : featureColumn ⟨[("Brightness", [Cell.num 1, Cell.num 1]),
        ("Mean_R", [Cell.num 1, Cell.num 2])]⟩ "Brightness" = [1, 1] := by
      decide
    show round3 (pearson _ _) ≠ 1
    rw [hl]
    have hcov : covSum [(1 : ℚ), 1] [(1 : ℚ), 1] = 0 := by
      have hm : listMean [(1 : ℚ), 1] = 1 := by
        norm_num [listMean]
      rw [covSum]
      have hlen2 : ([(1 : ℚ), 1]).length = 2 := rfl
      rw [hlen2, Finset.sum_range_succ, Finset.sum_range_succ,
        Finset.sum_range_zero, hm]
      simp [List.getD_cons_zero, List.getD_cons_succ]
    have hp : pearson [(1 : ℚ), 1] [(1 : ℚ), 1] = 0 := by
      rw [pearson, hcov]
      norm_num
    rw [hp, round3_zero_of_num_zero 0 rfl]
    norm_num

/-- Claim C2: `compute_correlations` returns the empty result exactly
when fewer than 2 catalog feature columns are present, or when fewer
than 2 rows survive numeric coercion and missing-row dropping; being a
total function, it signals these insufficient-data cases by the empty
result rather than an error. -/
theorem C2_empty_iff_insufficient (df : DataFrame) :
    compute_correlations df = none ↔
      (availableFeatures df).length < 2 ∨ (validRowIdx df).length < 2 := by
  unfold compute_correlations
  split_ifs with h1 h2
  · simp [h1]
  · simp [h1, h2]
  · simp [h1, h2]

/-- Witness for C2: a dataset with a single catalog column yields the
empty correlation result. -/
theorem C2_empty_iff_insufficient_witness :
    compute_correlations ⟨[("Brightness", [Cell.num 1, Cell.num 2])]⟩ = none :=
  (C2_empty_iff_insufficient ⟨[("Brightness", [Cell.num 1, Cell.num 2])]⟩).mpr
    (Or.inl (by decide))

/-- Claim C8 (code behaviour at the failing input): with two matching
files where the copy of the first fails, the loop aborts with the
exception and the second file is not copied — although the second file
alone would have been copied.  This contradicts the specified isolation
of per-file copy failures. -/
theorem C8_copy_failure_aborts_batch :
    generate_correlated_images ["a_analyzed.jpg", "b_analyzed.jpg"]
        (fun f => !(f == "a_analyzed.jpg")) = ([], true) ∧
      generate_correlated_images ["b_analyzed.jpg"]
        (fun f => !(f == "a_analyzed.jpg")) = (["b_correlated.jpg"], false) := by
  decide

/-- Claim C9: when the input CSV is absent, `main` prints the
user-facing error message and returns early: no report is written and
no image is copied. -/
theorem C9_missing_input_early_return (env : Env) (h : env.csvExists = false) :
    (main env).printed = [errNotFound env.workingDir] ∧
      (main env).report = none ∧ (main env).copied = [] := by
  unfold main
  rw [h]
  exact ⟨rfl, rfl, rfl⟩

/-- Witness for C9 at a concrete environment with no CSV file. -/
theorem C9_missing_input_early_return_witness :
    (main ⟨"data/testing-input-output", false, ⟨[]⟩, [], fun _ => true⟩).report =
      none :=
  (C9_missing_input_early_return
    ⟨"data/testing-input-output", false, ⟨[]⟩, [], fun _ => true⟩ rfl).2.1

/-- Claim C3: `compute_data_density` returns the empty mapping when the
`Texture_Class` column is absent; otherwise only non-missing category
values are counted and keyed, and a category counted `n` times is
labelled Low below 5, Medium from 5 to 11, and High from 12 on. -/
theorem C3_density_classification (df : DataFrame) :
    (df.hasCol textureColumnName = false → compute_data_density df = []) ∧
      (∀ k s, (k, s) ∈ compute_data_density df →
        k ≠ Cell.null ∧ k ∈ df.getCol textureColumnName ∧
          s = confidenceLabel ((nonNullCategories df).count k)) ∧
      (df.hasCol textureColumnName = true → ∀ k ∈ nonNullCategories df,
        (k, confidenceLabel ((nonNullCategories df).count k)) ∈
          compute_data_density df) ∧
      (∀ n : ℕ,
        (n < 5 → confidenceLabel n = "Low Confidence (n=" ++ toString n ++ ")") ∧
        (5 ≤ n → n < 12 →
          confidenceLabel n = "Medium Confidence (n=" ++ toString n ++ ")") ∧
        (12 ≤ n → confidenceLabel n = "High Confidence (n=" ++ toString n ++ ")")) := by
  refine ⟨?_, ?_, ?_, ?_⟩
  · intro h
    unfold compute_data_density
    rw [h]
    rfl
  · intro k s hks
    unfold compute_data_density at hks
    by_cases h : df.hasCol textureColumnName
    · rw [if_pos h] at hks
      rw [List.mem_map] at hks
      obtain ⟨⟨k', n⟩, hp, heq⟩ := hks
      obtain ⟨rfl, rfl⟩ := Prod.mk.injEq .. ▸ heq
      obtain ⟨hk, rfl⟩ := (mem_value_counts df k' n).mp hp
      have hk' := hk
      unfold nonNullCategories at hk'
      rw [List.mem_filter] at hk'
      refine ⟨by simpa using hk'.2, hk'.1, rfl⟩
    · rw [if_neg h] at hks
      exact absurd hks (List.not_mem_nil _)
  · intro h k hk
    unfold compute_data_density
    rw [if_pos h, List.mem_map]
    exact ⟨(k, (nonNullCategories df).count k),
      (mem_value_counts df k _).mpr ⟨hk, rfl⟩, rfl⟩
  · intro n
    refine ⟨fun h1 => ?_, fun h1 h2 => ?_, fun h1 => ?_⟩
    · rw [confidenceLabel, if_pos h1]
    · rw [confidenceLabel, if_neg (by omega), if_pos h2]
    · rw [confidenceLabel, if_neg (by omega), if_neg (by omega)]

/-- Witness for C3: a dataset without the category column yields the
empty density map, and the boundary count 12 is labelled High. -/
theorem C3_density_classification_witness :
    compute_data_density ⟨[("x", [Cell.num 1])]⟩ = [] ∧
      confidenceLabel 12 = "High Confidence (n=" ++ toString 12 ++ ")" :=
  ⟨(C3_density_classification ⟨[("x", [Cell.num 1])]⟩).1 (by decide),
    ((C3_density_classification ⟨[("x", [Cell.num 1])]⟩).2.2.2 12).2.2 (by omega)⟩

/-- Claim C4: over a non-empty correlation matrix (distinct column
labels), each unordered pair of distinct columns is considered exactly
once by the insight scan (in exactly one orientation, the
lexicographically increasing one); the pair yields no sentence for
`|r| ≤ 0.5`, one `strong` sentence for `0.5 < |r| ≤ 0.7`, one
`very strong` sentence for `|r| > 0.7`; the direction is `positive` iff
`r > 0` and the sentence reports `r` through the 3-decimal format. -/
theorem C4_insight_pair_rules (m : CorrMatrix) (a b : String)
    (hnd : m.cols.Nodup) (ha : a ∈ m.cols) (hb : b ∈ m.cols)
    (hab : strLt a b = true) :
    countOcc (a, b) (consideredPairs m) = 1 ∧
      countOcc (b, a) (consideredPairs m) = 0 ∧
      (∀ x y : String, x ≠ y → strLt x y = true ∨ strLt y x = true) ∧
      (∀ density, generate_narrative_insights (some m) density =
        (consideredPairs m).filterMap
            (fun p => pairSentence p.1 p.2 (m.entry p.1 p.2)) ++
          densityInsights density) ∧
      (|m.entry a b| ≤ 1/2 → pairSentence a b (m.entry a b) = none) ∧
      (1/2 < |m.entry a b| → |m.entry a b| ≤ 7/10 →
        pairSentence a b (m.entry a b) = some (insightSentence a "strong"
          (if 0 < m.entry a b then "positive" else "negative") b
          (fmt3 (m.entry a b)))) ∧
      (7/10 < |m.entry a b| →
        pairSentence a b (m.entry a b) = some (insightSentence a "very strong"
          (if 0 < m.entry a b then "positive" else "negative") b
          (fmt3 (m.entry a b)))) := by
  refine ⟨?_, ?_, strLt_total, ?_, ?_, ?_, ?_⟩
  · exact countOcc_eq_one (nodup_consideredPairs m hnd)
      ((mem_consideredPairs m (a, b)).mpr ⟨ha, hb, hab⟩)
  · refine countOcc_eq_zero (fun hmem => ?_)
    have h3 := ((mem_consideredPairs m (b, a)).mp hmem).2.2
    have h4 := charListLt_asymm a.toList b.toList hab
    rw [strLt] at h3
    rw [h3] at h4
    exact absurd h4 (by simp)
  · intro density
    rw [generate_narrative_insights, correlationInsights_eq]
  · intro h
    rw [pairSentence, if_neg (by push_neg; linarith), if_neg (by push_neg; exact h)]
  · intro h1 h2
    rw [pairSentence, if_neg (by push_neg; exact h2), if_pos h1]
  · intro h
    rw [pairSentence, if_pos h]

/-- Witness for C4 on a concrete 2-column matrix with `r = 0.6`. -/
theorem C4_insight_pair_rules_witness :
    countOcc ("Brightness", "Mean_R")
        (consideredPairs ⟨["Brightness", "Mean_R"], fun _ _ => 3/5⟩) = 1 ∧
      pairSentence "Brightness" "Mean_R" ((3 : ℚ)/5) =
        some (insightSentence "Brightness" "strong"
          (if (0 : ℚ) < 3/5 then "positive" else "negative") "Mean_R"
          (fmt3 ((3 : ℚ)/5))) :=
  ⟨(C4_insight_pair_rules ⟨["Brightness", "Mean_R"], fun _ _ => 3/5⟩
      "Brightness" "Mean_R" (by decide) (by decide) (by decide) (by decide)).1,
    (C4_insight_pair_rules ⟨["Brightness", "Mean_R"], fun _ _ => 3/5⟩
      "Brightness" "Mean_R" (by decide) (by decide) (by decide) (by decide)).2.2.2.2.2.1
      (by rw [abs_of_pos] <;> norm_num) (by rw [abs_of_pos] <;> norm_num)⟩

/-- Claim C5 (amended): non-numeric feature values are coerced to
missing inside the correlation computation, without error; a row is
dropped there exactly when some selected feature cell of it is
non-numeric; the summary statistics of a numeric-dtype feature column
and the grouped means are computed from that column's own non-missing
values over all rows — including the rows the correlation dropped.
(As the counterexample shows, a feature column that itself contains a
non-numeric token is object-dtype and is excluded from the statistics
table rather than coerced.) -/
theorem C5_missing_row_isolation (df : DataFrame) (c : String)
    (hc : c ∈ availableFeatures df)
    (hnum : numericDtype (df.getCol c) = true) :
    (∀ i, i ∈ validRowIdx df ↔ i < df.nrows ∧
      ∀ c' ∈ availableFeatures df, (toNumeric (df.cellAt c' i)).isSome = true) ∧
      (∃ t, compute_statistics df = StatsResult.numericTable t ∧ c ∈ t.cols ∧
        t.count c = (columnNumericValues (df.getCol c)).length ∧
        t.mean c = roundq3 (listMean (columnNumericValues (df.getCol c)))) ∧
      (columnNumericValues (df.getCol c)).length =
        ((df.getCol c).filter (fun x => x ≠ Cell.null)).length ∧
      (∀ k, groupMean df k c = roundq3 (listMean
        (((rowsWithCategory df k).map (fun i => df.cellAt c i)).filterMap
          toNumeric))) := by
  refine ⟨?_, exists_numericTable df c hc hnum,
    columnNumericValues_length_of_numericDtype _ hnum, fun k => rfl⟩
  intro i
  unfold validRowIdx
  rw [List.mem_filter, List.mem_range]
  constructor
  · rintro ⟨h1, h2⟩
    exact ⟨h1, List.all_eq_true.mp h2⟩
  · rintro ⟨h1, h2⟩
    exact ⟨h1, List.all_eq_true.mpr h2⟩

/-- Witness for C5 at a dataset with one missing `Mean_R` cell: the
`Mean_R` statistics still count its one non-missing value per
non-missing cell of the column. -/
theorem C5_missing_row_isolation_witness :
    (columnNumericValues
        ((⟨[("Brightness", [Cell.num 1, Cell.num 2]),
            ("Mean_R", [Cell.null, Cell.num 5])]⟩ : DataFrame).getCol
          "Mean_R")).length =
      (((⟨[("Brightness", [Cell.num 1, Cell.num 2]),
          ("Mean_R", [Cell.null, Cell.num 5])]⟩ : DataFrame).getCol
        "Mean_R").filter (fun x => x ≠ Cell.null)).length :=
  (C5_missing_row_isolation
    ⟨[("Brightness", [Cell.num 1, Cell.num 2]),
      ("Mean_R", [Cell.null, Cell.num 5])]⟩ "Mean_R"
    (by decide) (by decide)).2.2.1

/-- Counterexample to C5 as stated: in a dataset whose `Mean_R` column
contains the non-numeric token `"x"`, the claim promises `Mean_R`
statistics over its non-missing values `[2, 3]`, but `describe` drops
the object-dtype column entirely: it is absent from the statistics. -/
theorem C5_missing_row_isolation_counterexample :
    "Mean_R" ∈ availableFeatures
        ⟨[("Brightness", [Cell.num 1, Cell.num 2, Cell.num 3]),
          ("Mean_R", [Cell.str "x", Cell.num 2, Cell.num 3])]⟩ ∧
      "Mean_R" ∉ statsColumns (compute_statistics
        ⟨[("Brightness", [Cell.num 1, Cell.num 2, Cell.num 3]),
          ("Mean_R", [Cell.str "x", Cell.num 2, Cell.num 3])]⟩) := by
  constructor
  · decide
  · have h : statsColumns (compute_statistics
        ⟨[("Brightness", [Cell.num 1, Cell.num 2, Cell.num 3]),
          ("Mean_R", [Cell.str "x", Cell.num 2, Cell.num 3])]⟩) =
        ["Brightness"] := rfl
    rw [h]
    decide

/-- Claim C6 (amended): `compute_statistics` is empty exactly when no
catalog feature column is present; when a present catalog column is
numeric-dtype the result is the numeric `describe` table, indexed by
exactly `count, mean, std, min, 25%, 50%, 75%, max`, with one column
per present catalog feature column of numeric dtype (object-dtype
feature columns are dropped), sample standard deviation and
linear-interpolation percentiles. -/
theorem C6_describe_shape (df : DataFrame) :
    (compute_statistics df = StatsResult.empty ↔ availableFeatures df = []) ∧
      (∀ t, compute_statistics df = StatsResult.numericTable t →
        t.cols = (availableFeatures df).filter
            (fun c => numericDtype (df.getCol c)) ∧
          statIndexNames (StatsResult.numericTable t) =
            ["count", "mean", "std", "min", "25%", "50%", "75%", "max"] ∧
          (∀ c, t.std c = describeStd (columnNumericValues (df.getCol c))) ∧
          (∀ c, t.q25 c = roundq3 (quantileLinear (sortedColumn df c) (1/4))) ∧
          (∀ c, t.q50 c = roundq3 (quantileLinear (sortedColumn df c) (1/2))) ∧
          (∀ c, t.q75 c = roundq3 (quantileLinear (sortedColumn df c) (3/4)))) ∧
      (availableFeatures df ≠ [] →
        (∃ c ∈ availableFeatures df, numericDtype (df.getCol c) = true) →
        ∃ t, compute_statistics df = StatsResult.numericTable t) := by
  refine ⟨?_, ?_, ?_⟩
  · unfold compute_statistics
    by_cases h : (availableFeatures df).isEmpty
    · rw [if_pos h]
      simp [List.isEmpty_iff.mp h]
    · rw [if_neg h]
      have hne : availableFeatures df ≠ [] := by
        simpa [List.isEmpty_iff] using h
      by_cases h2 : ((availableFeatures df).filter
          (fun c => numericDtype (df.getCol c))).isEmpty
      · rw [if_pos h2]
        simp [hne]
      · rw [if_neg h2]
        simp [hne]
  · intro t ht
    unfold compute_statistics at ht
    by_cases h : (availableFeatures df).isEmpty
    · rw [if_pos h] at ht
      exact absurd ht (by simp)
    · rw [if_neg h] at ht
      by_cases h2 : ((availableFeatures df).filter
          (fun c => numericDtype (df.getCol c))).isEmpty
      · rw [if_pos h2] at ht
        exact absurd ht (by simp)
      · rw [if_neg h2] at ht
        have ht' := (StatsResult.numericTable.injEq .. ▸ ht).symm
        subst ht'
        exact ⟨rfl, rfl, fun c => rfl, fun c => rfl, fun c => rfl, fun c => rfl⟩
  · intro _hne hex
    obtain ⟨c, hc, hnum⟩ := hex
    obtain ⟨t, ht, -⟩ := exists_numericTable df c hc hnum
    exact ⟨t, ht⟩

/-- Witness for C6 at a concrete numeric dataset. -/
theorem C6_describe_shape_witness :
    ∃ t, compute_statistics
        ⟨[("Brightness", [Cell.num 1]), ("Mean_R", [Cell.num 2])]⟩ =
      StatsResult.numericTable t :=
  (C6_describe_shape
      ⟨[("Brightness", [Cell.num 1]), ("Mean_R", [Cell.num 2])]⟩).2.2
    (by decide) ⟨"Brightness", by decide, by decide⟩

/-- Counterexample to C6 as stated: `Mean_R` is a present catalog
feature column, but because it holds a non-numeric token it is
object-dtype and `describe` omits it — the statistics table does not
have one column per present catalog feature column. -/
theorem C6_describe_shape_counterexample :
    "Mean_R" ∈ availableFeatures
        ⟨[("Brightness", [Cell.num 10, Cell.num 20]),
          ("Mean_R", [Cell.str "y", Cell.num 5])]⟩ ∧
      "Mean_R" ∉ statsColumns (compute_statistics
        ⟨[("Brightness", [Cell.num 10, Cell.num 20]),
          ("Mean_R", [Cell.str "y", Cell.num 5])]⟩) := by
  constructor
  · decide
  · have h : statsColumns (compute_statistics
        ⟨[("Brightness", [Cell.num 10, Cell.num 20]),
          ("Mean_R", [Cell.str "y", Cell.num 5])]⟩) = ["Brightness"] := rfl
    rw [h]
    decide

/-- Claim C7: when all four artifacts are empty, the rendered report
contains all four placeholder phrases, and no table is rendered (no
markdown table line — in fact no `|` character — occurs). -/
theorem C7_empty_report_placeholders :
    strContains (generate_markdown_report none none StatsResult.empty [])
        "Insufficient valid data for correlation matrix" = true ∧
      strContains (generate_markdown_report none none StatsResult.empty [])
        "No texture groups available" = true ∧
      strContains (generate_markdown_report none none StatsResult.empty [])
        "No statistics available" = true ∧
      strContains (generate_markdown_report none none StatsResult.empty [])
        "No texture classification data available" = true ∧
      (generate_markdown_report none none StatsResult.empty []).toList.count '|'
        = 0 := by
  set_option maxRecDepth 20000 in decide

/-- Claim C10: `generate_narrative_insights` always returns a non-empty
list: the empty correlation matrix contributes the insufficient-data
sentence, and the density part is always non-empty — either the no-data
sentence or a header plus one line per category. -/
theorem C10_insights_never_empty (corr : Option CorrMatrix)
    (density : List (Cell × String)) :
    generate_narrative_insights corr density ≠ [] ∧
      (corr = none →
        "Insufficient data for correlations (n < 2 valid rows)." ∈
          generate_narrative_insights corr density) ∧
      (density = [] →
        "No texture classification data available." ∈
          generate_narrative_insights corr density) ∧
      (density ≠ [] →
        "Data density per texture class:" ∈
          generate_narrative_insights corr density ∧
        (densityInsights density).length = density.length + 1) := by
  refine ⟨?_, ?_, ?_, ?_⟩
  · unfold generate_narrative_insights densityInsights
    by_cases hd : density.isEmpty <;> simp [hd]
  · intro hc
    subst hc
    simp [generate_narrative_insights]
  · intro hd
    subst hd
    unfold generate_narrative_insights densityInsights
    simp
  · intro hd
    constructor
    · unfold generate_narrative_insights densityInsights
      simp [List.isEmpty_iff, hd]
    · unfold densityInsights
      simp [List.isEmpty_iff, hd]

/-- Witness for C10 at the empty matrix and empty density map. -/
theorem C10_insights_never_empty_witness :
    generate_narrative_insights none [] ≠ [] ∧
      "Insufficient data for correlations (n < 2 valid rows)." ∈
        generate_narrative_insights none ([] : List (Cell × String)) :=
  ⟨(C10_insights_never_empty none []).1,
    (C10_insights_never_empty none []).2.1 rfl⟩

end Correlator
